import Mathlib

/-!
Verification of the token-risk-analysis repository (dashboard.py and
full_risk_score_analysis.py) against its natural-language specification.

The Python sources are shallowly embedded: pure helper functions become Lean
functions over `List Char` / `String` / `ℚ`; the filesystem and the external
collaborator modules (data fetcher, detectors, scoring engine) become explicit
parameters (a directory listing, an environment of stage oracles); Python
exceptions become `Except` values; `None` becomes `Option.none`.
-/

set_option maxHeartbeats 1000000

namespace RiskDash

/-! ## Regex machinery for `parse_filename` (dashboard.py lines 20-30)

The source pattern is `re.search(r'(.+)_risk_(analysis|report)_(\d{8}_\d{6})\.(csv|txt)', filename)`.
`re.search` semantics: try start positions left to right; at the chosen start
the greedy `(.+)` consumes as much as possible (never a newline) and backtracks;
the rest of the pattern is rigid.  We model this as: leftmost start `i`, then
the greatest end-of-group position `j > i` such that the newline-free slice
`s[i:j]` is followed by the rigid tail at `j`.  `\d` is modelled as ASCII digits. -/

/-- The regex metacharacter `.` matches every character except a newline. -/
def notNL (c : Char) : Bool := c ≠ '\n'

/-- Whether a slice is matchable by `.+` (no newline inside). -/
def noNL (l : List Char) : Bool := l.all notNL

/-- Strip an expected literal prefix; `none` when the literal does not match. -/
def stripLit : List Char → List Char → Option (List Char)
  | [], s => some s
  | _ :: _, [] => none
  | c :: cs, d :: ds => if c = d then stripLit cs ds else none

/-- Match exactly `n` digit characters (`\d{n}`), returning them and the rest. -/
def takeDigitsN : Nat → List Char → Option (List Char × List Char)
  | 0, s => some ([], s)
  | _ + 1, [] => none
  | n + 1, c :: cs =>
    if c.isDigit then (takeDigitsN n cs).map (fun p => (c :: p.1, p.2)) else none

/-- `(analysis|report)`, alternatives tried in order (they are disjoint). -/
def matchKind (l : List Char) : Option (String × List Char) :=
  match stripLit "analysis".toList l with
  | some r => some ("analysis", r)
  | none =>
    match stripLit "report".toList l with
    | some r => some ("report", r)
    | none => none

/-- `\.(csv|txt)` — a literal dot then either extension. -/
def matchExt (l : List Char) : Bool :=
  match stripLit ['.'] l with
  | none => false
  | some r => (stripLit "csv".toList r).isSome || (stripLit "txt".toList r).isSome

/-- The rigid part `_risk_(analysis|report)_(\d{8}_\d{6})\.(csv|txt)` matched at
the head of `l` (trailing characters are allowed: the pattern is unanchored).
Returns `(kind, date)` = (group 2, group 3). -/
def tailAt (l : List Char) : Option (String × String) :=
  match stripLit "_risk_".toList l with
  | none => none
  | some r1 =>
    match matchKind r1 with
    | none => none
    | some (kind, r2) =>
      match stripLit ['_'] r2 with
      | none => none
      | some r3 =>
        match takeDigitsN 8 r3 with
        | none => none
        | some (d1, r4) =>
          match stripLit ['_'] r4 with
          | none => none
          | some r5 =>
            match takeDigitsN 6 r5 with
            | none => none
            | some (d2, r6) =>
              if matchExt r6 then some (kind, (d1 ++ '_' :: d2).asString) else none

/-- One backtracking attempt: group `(.+)` = `s[i:j]`, rigid tail at `j`. -/
def tryMatch (s : List Char) (i j : Nat) : Option (Nat × Nat × String × String) :=
  match tailAt (s.drop j) with
  | none => none
  | some kd =>
    if i < j then
      if noNL ((s.drop i).take (j - i)) then some (i, j, kd.1, kd.2) else none
    else none

/-- `re.search` for the filename pattern: leftmost start `i`, then the greedy
(largest) group end `j`. -/
def reSearch (s : List Char) : Option (Nat × Nat × String × String) :=
  (List.range s.length).findSome? fun i =>
    ((List.range (s.length + 1)).reverse).findSome? fun j => tryMatch s i j

/-- `parse_filename` (dashboard.py lines 20-30).  On a match returns
`(token, date_str, file_type)` = (group 1, group 3, group 2); the source's
`(None, None, None)` no-match result is modelled as `none`. -/
def parse_filename (filename : String) : Option (String × String × String) :=
  match reSearch filename.toList with
  | none => none
  | some (i, j, kind, date) =>
    some (((filename.toList.drop i).take (j - i)).asString, date, kind)

/-! ## Artifact discovery `get_available_data` (dashboard.py lines 32-56)

Python dicts (insertion-ordered, string keys) are modelled as association
lists; `d[k] = v` replaces in place or appends.  `os.listdir` is modelled as an
explicit listing argument (the function returns `{}` for a missing folder,
which corresponds to the empty listing). -/

abbrev KindMap := List (String × String)
abbrev DateMap := List (String × KindMap)
abbrev TokenMap := List (String × DateMap)

/-- Association-list lookup (Python `k in d` / `d[k]` read). -/
def alookup {β : Type} : List (String × β) → String → Option β
  | [], _ => none
  | (k, v) :: m, key => if k = key then some v else alookup m key

/-- Python dict assignment `d[k] = v`: overwrite in place if present, else append. -/
def dictSet {β : Type} (m : List (String × β)) (k : String) (v : β) :
    List (String × β) :=
  if (alookup m k).isSome then m.map fun p => if p.1 = k then (k, v) else p
  else m ++ [(k, v)]

/-- The loop body's nested update `data_map[token][date_str][ftype] = full_path`
(with the two `if ... not in ...` default insertions). -/
def insertEntry (m : TokenMap) (tok date ftype path : String) : TokenMap :=
  let dm := (alookup m tok).getD []
  let km := (alookup dm date).getD []
  dictSet m tok (dictSet dm date (dictSet km ftype path))

def joinPath (a b : String) : String := a ++ "/" ++ b

def DATA_FOLDER : String := "outputs/risk_score_analysis"

/-- One iteration of the `for f in files` loop, including the
`if token and date_str:` truthiness guard. -/
def gadStep (folder : String) (m : TokenMap) (f : String) : TokenMap :=
  match parse_filename f with
  | some (token, date_str, ftype) =>
    if token ≠ "" ∧ date_str ≠ "" then insertEntry m token date_str ftype (joinPath folder f)
    else m
  | none => m

/-- `get_available_data` (dashboard.py lines 32-56) as a function of the
directory listing. -/
def get_available_data (folder : String) (listing : List String) : TokenMap :=
  listing.foldl (gadStep folder) []

/-- Lookup of one artifact path in the discovered mapping. -/
def lookupPath (m : TokenMap) (tok date ftype : String) : Option String :=
  (alookup m tok).bind fun dm => (alookup dm date).bind fun km => alookup km ftype

/-! ## Viewer selection/load path (dashboard.py lines 139-169)

After a reachable `(token, date)` selection, the code evaluates
`files['report']` (line 154) and `files['analysis']` (line 155) with plain
dict subscripts, then branches on their truthiness (lines 161-169).  A dict
subscript on a missing key raises `KeyError`. -/

inductive PyErr where
  | keyError (k : String)
deriving DecidableEq

/-- Python `d[k]`: raises `KeyError` when the key is absent. -/
def pyGetItem {β : Type} (m : List (String × β)) (k : String) : Except PyErr β :=
  match alookup m k with
  | some v => Except.ok v
  | none => Except.error (PyErr.keyError k)

inductive VEvent where
  | captionReport (found : Bool)
  | captionData (found : Bool)
  | parsedReport (path : String)
  | errorReportMissing
  | loadedCsv (path : String)
  | errorCsvMissing
deriving DecidableEq

/-- The module-level viewer flow for a selection: sidebar captions (lines
151-155) followed by the load block (lines 157-169).  Returns the rendered
events, or the uncaught Python exception. -/
def viewerLoad (tree : TokenMap) (selTok selDate : String) :
    Except PyErr (List VEvent) := do
  let dm ← pyGetItem tree selTok
  let files ← pyGetItem dm selDate
  let rep ← pyGetItem files "report"
  let e1 := VEvent.captionReport (rep ≠ "")
  let ana ← pyGetItem files "analysis"
  let e2 := VEvent.captionData (ana ≠ "")
  let e3 := if rep ≠ "" then VEvent.parsedReport rep else VEvent.errorReportMissing
  let e4 := if ana ≠ "" then VEvent.loadedCsv ana else VEvent.errorCsvMissing
  return [e1, e2, e3, e4]

/-! ## Pipeline orchestrator (full_risk_score_analysis.py, `main`)

The external collaborators (fetcher, analyzers, detectors) are black boxes; we
model them as an environment of per-token oracles.  A raised Python exception
is an `Except.error` carrying its message.  `holders`/`flows` return `none`
for Python `None` and a list for fetched data; the source's truthiness tests
(`if holders_data:` line 48, `if user_flows is None or user_flows.empty:` line
63) are both "non-None and non-empty".  Observable behavior (prints and stage
invocations) is recorded as a trace of events. -/

structure PipelineEnv where
  holders : String → Option (List String)
  holderAnalysis : String → Except String Unit
  flows : String → Option (List String)
  wash : String → Except String Unit
  bot : String → Except String Unit
  combined : String → Except String Unit

/-- Python truthiness of a fetched-data value (`None` and empty are falsy). -/
def truthy : Option (List String) → Bool
  | none => false
  | some l => !l.isEmpty

inductive Event where
  | analyzing (t : String)
  | fetchHolders (t : String)
  | holderAnalysisRun (t : String)
  | holderAnalysisFailed (t : String) (e : String)
  | skipHolderAnalysis (t : String)
  | fetchFlows (t : String)
  | skipTransferAnalysis (t : String)
  | saveTempFlows (t : String)
  | washRun (t : String)
  | botRun (t : String)
  | botFailed (t : String) (e : String)
  | combinedRun (t : String)
  | combinedFailed (t : String) (e : String)
  | combinedOk (t : String)
deriving DecidableEq

/-- One iteration of the `for token_address in config.TOKENS` loop (lines
36-106).  Result: the trace of this token's processing and, when an exception
escapes the iteration (only possible at the unguarded wash-trading stage,
lines 74-80), that exception. -/
def processToken (env : PipelineEnv) (t : String) : List Event × Option String :=
  let ev0 := [Event.analyzing t, Event.fetchHolders t]
  let evH :=
    if truthy (env.holders t) then
      match env.holderAnalysis t with
      | Except.ok _ => [Event.holderAnalysisRun t]
      | Except.error e => [Event.holderAnalysisRun t, Event.holderAnalysisFailed t e]
    else [Event.skipHolderAnalysis t]
  let ev1 := ev0 ++ evH ++ [Event.fetchFlows t]
  if truthy (env.flows t) then
    let ev2 := ev1 ++ [Event.saveTempFlows t, Event.washRun t]
    match env.wash t with
    | Except.error e => (ev2, some e)
    | Except.ok _ =>
      let ev3 := ev2 ++ [Event.botRun t]
      match env.bot t with
      | Except.error e => (ev3 ++ [Event.botFailed t e], none)
      | Except.ok _ =>
        let ev4 := ev3 ++ [Event.combinedRun t]
        match env.combined t with
        | Except.error e => (ev4 ++ [Event.combinedFailed t e], none)
        | Except.ok _ => (ev4 ++ [Event.combinedOk t], none)
  else (ev1 ++ [Event.skipTransferAnalysis t], none)

/-- The multi-token loop: an uncaught exception terminates it, skipping all
remaining tokens. -/
def mainLoop (env : PipelineEnv) : List String → List Event × Option String
  | [] => ([], none)
  | t :: ts =>
    let p := processToken env t
    match p.2 with
    | some e => (p.1, some e)
    | none => (p.1 ++ (mainLoop env ts).1, (mainLoop env ts).2)

/-- The only way an exception escapes one token's processing is the
wash-trading stage (reached when the transfer flows are truthy). -/
theorem processToken_snd (env : PipelineEnv) (t : String) (e : String) :
    (processToken env t).2 = some e ↔
      truthy (env.flows t) = true ∧ env.wash t = Except.error e := by
  unfold processToken
  cases hh : truthy (env.holders t) <;>
    cases hha : env.holderAnalysis t <;>
      cases hf : truthy (env.flows t) <;>
        cases hw : env.wash t <;>
          cases hb : env.bot t <;>
            cases hc : env.combined t <;>
              simp_all

theorem mainLoop_cons (env : PipelineEnv) (t : String) (ts : List String) :
    mainLoop env (t :: ts) =
      match (processToken env t).2 with
      | some e => ((processToken env t).1, some e)
      | none => ((processToken env t).1 ++ (mainLoop env ts).1, (mainLoop env ts).2) := by
  rfl

theorem mainLoop_append_of_ok (env : PipelineEnv) (ts₁ ts₂ : List String)
    (h : ∀ t ∈ ts₁, (processToken env t).2 = none) :
    mainLoop env (ts₁ ++ ts₂) =
      ((mainLoop env ts₁).1 ++ (mainLoop env ts₂).1, (mainLoop env ts₂).2) := by
  induction ts₁ with
  | nil => simp [mainLoop]
  | cons t ts ih =>
    have ht : (processToken env t).2 = none := h t (List.mem_cons_self t ts)
    have ih' := ih fun x hx => h x (List.mem_cons_of_mem t hx)
    simp only [List.cons_append, mainLoop, ht]
    rw [show ts.append ts₂ = ts ++ ts₂ from rfl, ih']
    simp [List.append_assoc]

/-- An exception never escapes a token iteration unless the (unguarded)
wash-trading stage raised. -/
theorem processToken_snd_none (env : PipelineEnv) (t : String) :
    (processToken env t).2 = none ↔
      ¬(truthy (env.flows t) = true ∧ ∃ e, env.wash t = Except.error e) := by
  cases hs : (processToken env t).2 with
  | none =>
    simp only [true_iff]
    rintro ⟨hf, e, hw⟩
    have h := (processToken_snd env t e).mpr ⟨hf, hw⟩
    rw [hs] at h
    exact Option.noConfusion h
  | some e =>
    have h := (processToken_snd env t e).mp hs
    constructor
    · intro hc
      exact Option.noConfusion hc
    · intro hn
      exact absurd ⟨h.1, e, h.2⟩ hn

/-- C1: in the orchestrator's per-token loop the wash-trading stage has no
failure isolation: if the Wash-Trading Detector raises while processing a
reached token, the exception propagates out of the loop and the remaining
tokens are never processed (the run's outcome is as if they were absent from
the list); by contrast, an escaping exception can only come from the
wash-trading stage — failures of the holder-analysis, bot-detection and
combined-scoring stages are caught inside the iteration. -/
theorem c1_wash_stage_not_isolated :
    (∀ (env : PipelineEnv) (ts₁ ts₂ : List String) (t : String) (e : String),
        (∀ t' ∈ ts₁, (processToken env t').2 = none) →
        truthy (env.flows t) = true →
        env.wash t = Except.error e →
        mainLoop env (ts₁ ++ t :: ts₂) = ((mainLoop env (ts₁ ++ [t])).1, some e))
    ∧ (∀ (env : PipelineEnv) (t : String) (e : String),
        (processToken env t).2 = some e ↔
          truthy (env.flows t) = true ∧ env.wash t = Except.error e) := by
  constructor
  · intro env ts₁ ts₂ t e hprev hflow hwash
    have hsnd : (processToken env t).2 = some e :=
      (processToken_snd env t e).mpr ⟨hflow, hwash⟩
    rw [mainLoop_append_of_ok env ts₁ (t :: ts₂) hprev,
        mainLoop_append_of_ok env ts₁ [t] hprev]
    rw [mainLoop_cons env t ts₂, mainLoop_cons env t []]
    rw [hsnd]
  · intro env t e
    exact processToken_snd env t e

def envC1 : PipelineEnv where
  holders := fun _ => some ["h"]
  holderAnalysis := fun _ => Except.ok ()
  flows := fun _ => some ["f"]
  wash := fun t => if t = "B" then Except.error "wash boom" else Except.ok ()
  bot := fun _ => Except.ok ()
  combined := fun _ => Except.ok ()

theorem c1_witness :
    mainLoop envC1 (["A"] ++ "B" :: ["C"]) =
        ((mainLoop envC1 (["A"] ++ ["B"])).1, some "wash boom")
    ∧ (processToken envC1 "B").2 = some "wash boom" :=
  ⟨c1_wash_stage_not_isolated.1 envC1 ["A"] ["C"] "B" "wash boom"
      (by decide) (by rfl) (by rfl),
   (c1_wash_stage_not_isolated.2 envC1 "B" "wash boom").mpr ⟨by rfl, by rfl⟩⟩

/-- C4: early-stage failures are isolated: an empty holder fetch only skips
the holder analysis (warning logged, transfer fetch and later stages still
reached); a raising Holder Analyzer is caught and logged and later stages
still run; and whenever a token's iteration ends without an uncaught
exception the loop continues with the subsequent tokens. -/
theorem c4_holder_stage_isolated (env : PipelineEnv) (t : String) :
    (truthy (env.holders t) = false →
        Event.skipHolderAnalysis t ∈ (processToken env t).1
      ∧ Event.holderAnalysisRun t ∉ (processToken env t).1
      ∧ Event.fetchFlows t ∈ (processToken env t).1
      ∧ (truthy (env.flows t) = true → Event.washRun t ∈ (processToken env t).1))
    ∧ (∀ e, truthy (env.holders t) = true → env.holderAnalysis t = Except.error e →
          Event.holderAnalysisFailed t e ∈ (processToken env t).1
        ∧ Event.fetchFlows t ∈ (processToken env t).1
        ∧ (truthy (env.flows t) = true → Event.washRun t ∈ (processToken env t).1)
        ∧ ((processToken env t).2 = none ↔
            ¬(truthy (env.flows t) = true ∧ ∃ e', env.wash t = Except.error e')))
    ∧ (∀ ts, (processToken env t).2 = none →
        mainLoop env (t :: ts) =
          ((processToken env t).1 ++ (mainLoop env ts).1, (mainLoop env ts).2)) := by
  refine ⟨?_, ?_, ?_⟩
  · intro hH
    unfold processToken
    rw [hH]
    cases hf : truthy (env.flows t) <;>
      cases hw : env.wash t <;>
        cases hb : env.bot t <;>
          cases hc : env.combined t <;>
            simp_all
  · intro e hH hFail
    refine ⟨?_, ?_, ?_, processToken_snd_none env t⟩ <;>
      · unfold processToken
        rw [hH, hFail]
        cases hf : truthy (env.flows t) <;>
          cases hw : env.wash t <;>
            cases hb : env.bot t <;>
              cases hc : env.combined t <;>
                simp_all
  · intro ts hsnd
    rw [mainLoop_cons env t ts, hsnd]

def envC4 : PipelineEnv where
  holders := fun t => if t = "A" then none else some ["h"]
  holderAnalysis := fun _ => Except.error "holder boom"
  flows := fun _ => some ["f"]
  wash := fun _ => Except.ok ()
  bot := fun _ => Except.ok ()
  combined := fun _ => Except.ok ()

theorem c4_witness :
    Event.skipHolderAnalysis "A" ∈ (processToken envC4 "A").1
    ∧ Event.washRun "A" ∈ (processToken envC4 "A").1
    ∧ Event.holderAnalysisFailed "B" "holder boom" ∈ (processToken envC4 "B").1
    ∧ mainLoop envC4 ["A", "B"] =
        ((processToken envC4 "A").1 ++ (mainLoop envC4 ["B"]).1, (mainLoop envC4 ["B"]).2) :=
  ⟨((c4_holder_stage_isolated envC4 "A").1 (by rfl)).1,
   ((c4_holder_stage_isolated envC4 "A").1 (by rfl)).2.2.2 (by rfl),
   ((c4_holder_stage_isolated envC4 "B").2.1 "holder boom" (by rfl) (by rfl)).1,
   (c4_holder_stage_isolated envC4 "A").2.2 ["B"] (by decide)⟩

/-! ## Report parser `parse_risk_report` (dashboard.py lines 58-111)

The file content is `some content` when the file opens and reads, `none` when
opening raises (nonexistent/unreadable file).  The nine `re.search` calls use
two pattern shapes, `<label>\s*([\d.]+)` and `<LEVEL>\s*:\s*(\d+)\s*wallets`;
both are scans for the leftmost occurrence of the literal label followed by
the rigid remainder (all character classes involved are disjoint, so greedy
matching needs no backtracking).  `float()` on a `[\d.]+` group raises
`ValueError` on inputs like `"."` or `"1.2.3"`; an exception anywhere in the
`try` block jumps to the `except`, which keeps the metrics assigned so far.
Float values are represented in `ℚ` (the claims only involve exact decimal
literals and the 0.0 defaults). -/

structure Metrics where
  global_health : ℚ := 0
  global_risk : ℚ := 0
  concentration_risk : ℚ := 0
  bot_risk : ℚ := 0
  wash_trading_risk : ℚ := 0
  dist_critical : ℕ := 0
  dist_high : ℕ := 0
  dist_medium : ℕ := 0
  dist_low : ℕ := 0
deriving DecidableEq

/-- Python `\s` (ASCII range). -/
def isPySpace (c : Char) : Bool :=
  c = ' ' || c = '\t' || c = '\n' || c = '\r' || c = '\x0B' || c = '\x0C'

/-- A character of the class `[\d.]`. -/
def isFloatChar (c : Char) : Bool := c.isDigit || c = '.'

/-- Try `\s*([\d.]+)` at the current position (right after the label). -/
def numGroupHere (l : List Char) : Option String :=
  let r := l.dropWhile isPySpace
  let g := r.takeWhile isFloatChar
  if g.isEmpty then none else some g.asString

/-- `re.search(r'<label>\s*([\d.]+)', content)`, returning group 1. -/
def searchFloatGroup (label : List Char) : List Char → Option String
  | [] => (stripLit label []).bind numGroupHere
  | c :: cs =>
    match (stripLit label (c :: cs)).bind numGroupHere with
    | some g => some g
    | none => searchFloatGroup label cs

/-- Try `\s*:\s*(\d+)\s*wallets` at the current position (after the level name). -/
def countGroupHere (l : List Char) : Option String :=
  match stripLit [':'] (l.dropWhile isPySpace) with
  | none => none
  | some r2 =>
    let r3 := r2.dropWhile isPySpace
    let g := r3.takeWhile Char.isDigit
    if g.isEmpty then none
    else
      if (stripLit "wallets".toList ((r3.drop g.length).dropWhile isPySpace)).isSome then
        some g.asString
      else none

/-- `re.search(r'<LEVEL>\s*:\s*(\d+)\s*wallets', content)`, returning group 1. -/
def searchCountGroup (label : List Char) : List Char → Option String
  | [] => (stripLit label []).bind countGroupHere
  | c :: cs =>
    match (stripLit label (c :: cs)).bind countGroupHere with
    | some g => some g
    | none => searchCountGroup label cs

/-- Numeric value of a digit string. -/
def digitsVal (l : List Char) : ℚ :=
  l.foldl (fun a c => a * 10 + ((c.toNat - '0'.toNat : ℕ) : ℚ)) 0

def digitsNat (l : List Char) : ℕ :=
  l.foldl (fun a c => a * 10 + (c.toNat - '0'.toNat)) 0

/-- Python `float()` on a `[\d.]+` group: valid iff it has at most one dot and
at least one digit; otherwise `ValueError` (modelled as `none`). -/
def pyFloat (s : String) : Option ℚ :=
  let cs := s.toList
  if cs.count '.' ≤ 1 ∧ cs.any Char.isDigit then
    let ip := cs.takeWhile (· ≠ '.')
    let fp := (cs.dropWhile (· ≠ '.')).drop 1
    some (digitsVal ip + digitsVal fp / (10 ^ fp.length))
  else none

def lblHealth : List Char := "TOKEN GLOBAL HEALTH SCORE:".toList
def lblGlobalRisk : List Char := "Global Risk Score:".toList
def lblConc : List Char := "Concentration Risk:".toList
def lblBot : List Char := "Bot Activity Risk:".toList
def lblWash : List Char := "Wash Trading Risk:".toList
def lblCrit : List Char := "CRITICAL".toList
def lblHigh : List Char := "HIGH".toList
def lblMed : List Char := "MEDIUM".toList
def lblLow : List Char := "LOW".toList

def updHealth (m : Metrics) (v : ℚ) : Metrics := { m with global_health := v }
def updGlobalRisk (m : Metrics) (v : ℚ) : Metrics := { m with global_risk := v }
def updConc (m : Metrics) (v : ℚ) : Metrics := { m with concentration_risk := v }
def updBot (m : Metrics) (v : ℚ) : Metrics := { m with bot_risk := v }
def updWash (m : Metrics) (v : ℚ) : Metrics := { m with wash_trading_risk := v }
def updCrit (m : Metrics) (v : ℕ) : Metrics := { m with dist_critical := v }
def updHigh (m : Metrics) (v : ℕ) : Metrics := { m with dist_high := v }
def updMed (m : Metrics) (v : ℕ) : Metrics := { m with dist_medium := v }
def updLow (m : Metrics) (v : ℕ) : Metrics := { m with dist_low := v }

/-- One `if <float match>: metrics[...] = float(...)` statement.  `.error`
carries the metrics at the point the `ValueError` was raised. -/
def setFloatStep (label : List Char) (upd : Metrics → ℚ → Metrics)
    (content : List Char) (m : Metrics) : Except Metrics Metrics :=
  match searchFloatGroup label content with
  | none => Except.ok m
  | some g =>
    match pyFloat g with
    | some v => Except.ok (upd m v)
    | none => Except.error m

/-- One `if <count match>: metrics[...] = int(...)` statement (`int` on `\d+`
never raises). -/
def setCountStep (label : List Char) (upd : Metrics → ℕ → Metrics)
    (content : List Char) (m : Metrics) : Except Metrics Metrics :=
  match searchCountGroup label content with
  | none => Except.ok m
  | some g => Except.ok (upd m (digitsNat g.toList))

/-- The body of the `try` block: the nine extraction statements in source
order, an exception aborting the rest. -/
def reportBody (content : List Char) : Except Metrics Metrics :=
  (Except.ok {} : Except Metrics Metrics) >>=
    setFloatStep lblHealth updHealth content >>=
    setFloatStep lblGlobalRisk updGlobalRisk content >>=
    setFloatStep lblConc updConc content >>=
    setFloatStep lblBot updBot content >>=
    setFloatStep lblWash updWash content >>=
    setCountStep lblCrit updCrit content >>=
    setCountStep lblHigh updHigh content >>=
    setCountStep lblMed updMed content >>=
    setCountStep lblLow updLow content

/-- The `except Exception` handler: the metrics assigned so far are returned. -/
def runCaught (e : Except Metrics Metrics) : Metrics :=
  match e with
  | Except.ok m => m
  | Except.error m => m

/-- `parse_risk_report` (dashboard.py lines 58-111): `none` = the `open` call
raised (file missing/unreadable), handled by the same `except`. -/
def parse_risk_report (file : Option String) : Metrics :=
  match file with
  | none => {}
  | some content => runCaught (reportBody content.toList)

theorem runCaught_bind {α : Type} (f : Metrics → α) {e : Except Metrics Metrics}
    (step : Metrics → Except Metrics Metrics)
    (h : ∀ m, f (runCaught (step m)) = f m) :
    f (runCaught (e >>= step)) = f (runCaught e) := by
  cases e with
  | error m => rfl
  | ok m => exact h m

theorem setFloatStep_eq_none (label : List Char) (upd : Metrics → ℚ → Metrics)
    (content : List Char) (m : Metrics) (h : searchFloatGroup label content = none) :
    setFloatStep label upd content m = Except.ok m := by
  unfold setFloatStep
  rw [h]

theorem setFloatStep_eq_some_ok (label : List Char) (upd : Metrics → ℚ → Metrics)
    (content : List Char) (m : Metrics) (g : String) (v : ℚ)
    (h1 : searchFloatGroup label content = some g) (h2 : pyFloat g = some v) :
    setFloatStep label upd content m = Except.ok (upd m v) := by
  unfold setFloatStep
  rw [h1]
  show (match pyFloat g with
        | some v => Except.ok (upd m v)
        | none => Except.error m) = Except.ok (upd m v)
  rw [h2]

theorem setFloatStep_eq_some_err (label : List Char) (upd : Metrics → ℚ → Metrics)
    (content : List Char) (m : Metrics) (g : String)
    (h1 : searchFloatGroup label content = some g) (h2 : pyFloat g = none) :
    setFloatStep label upd content m = Except.error m := by
  unfold setFloatStep
  rw [h1]
  show (match pyFloat g with
        | some v => Except.ok (upd m v)
        | none => Except.error m) = Except.error m
  rw [h2]

theorem setCountStep_eq_none (label : List Char) (upd : Metrics → ℕ → Metrics)
    (content : List Char) (m : Metrics) (h : searchCountGroup label content = none) :
    setCountStep label upd content m = Except.ok m := by
  unfold setCountStep
  rw [h]

theorem setCountStep_eq_some (label : List Char) (upd : Metrics → ℕ → Metrics)
    (content : List Char) (m : Metrics) (g : String)
    (h : searchCountGroup label content = some g) :
    setCountStep label upd content m = Except.ok (upd m (digitsNat g.toList)) := by
  unfold setCountStep
  rw [h]

theorem peelF {α : Type} (f : Metrics → α) (label : List Char)
    (upd : Metrics → ℚ → Metrics) (content : List Char)
    (h : ∀ m v, f (upd m v) = f m) {e : Except Metrics Metrics} :
    f (runCaught (e >>= setFloatStep label upd content)) = f (runCaught e) := by
  refine runCaught_bind f _ fun m => ?_
  cases hs : searchFloatGroup label content with
  | none =>
    rw [setFloatStep_eq_none label upd content m hs]
    rfl
  | some g =>
    cases hp : pyFloat g with
    | none =>
      rw [setFloatStep_eq_some_err label upd content m g hs hp]
      rfl
    | some v =>
      rw [setFloatStep_eq_some_ok label upd content m g v hs hp]
      exact h m v

theorem peelC {α : Type} (f : Metrics → α) (label : List Char)
    (upd : Metrics → ℕ → Metrics) (content : List Char)
    (h : ∀ m v, f (upd m v) = f m) {e : Except Metrics Metrics} :
    f (runCaught (e >>= setCountStep label upd content)) = f (runCaught e) := by
  refine runCaught_bind f _ fun m => ?_
  cases hs : searchCountGroup label content with
  | none =>
    rw [setCountStep_eq_none label upd content m hs]
    rfl
  | some g =>
    rw [setCountStep_eq_some label upd content m g hs]
    exact h m (digitsNat g.toList)

theorem setFloatStep_none (label : List Char) (upd : Metrics → ℚ → Metrics)
    (content : List Char) (h : searchFloatGroup label content = none) :
    setFloatStep label upd content = fun m => Except.ok m := by
  funext m
  unfold setFloatStep
  rw [h]

theorem setCountStep_none (label : List Char) (upd : Metrics → ℕ → Metrics)
    (content : List Char) (h : searchCountGroup label content = none) :
    setCountStep label upd content = fun m => Except.ok m := by
  funext m
  unfold setCountStep
  rw [h]

theorem bind_ok_id (e : Except Metrics Metrics) : (e >>= fun m => Except.ok m) = e := by
  cases e <;> rfl

/-- C5: each of the nine labeled report lines is independently optional on
read: when a line's pattern does not occur in the content, the corresponding
metric keeps its documented default (0.0 for the five float metrics, 0 for the
four wallet counts) and no exception reaches the caller (the parser is total;
see also `parse_risk_report`'s `runCaught` wrapper). -/
theorem c5_report_lines_optional (content : String) :
    (searchFloatGroup lblHealth content.toList = none →
        (parse_risk_report (some content)).global_health = 0)
  ∧ (searchFloatGroup lblGlobalRisk content.toList = none →
        (parse_risk_report (some content)).global_risk = 0)
  ∧ (searchFloatGroup lblConc content.toList = none →
        (parse_risk_report (some content)).concentration_risk = 0)
  ∧ (searchFloatGroup lblBot content.toList = none →
        (parse_risk_report (some content)).bot_risk = 0)
  ∧ (searchFloatGroup lblWash content.toList = none →
        (parse_risk_report (some content)).wash_trading_risk = 0)
  ∧ (searchCountGroup lblCrit content.toList = none →
        (parse_risk_report (some content)).dist_critical = 0)
  ∧ (searchCountGroup lblHigh content.toList = none →
        (parse_risk_report (some content)).dist_high = 0)
  ∧ (searchCountGroup lblMed content.toList = none →
        (parse_risk_report (some content)).dist_medium = 0)
  ∧ (searchCountGroup lblLow content.toList = none →
        (parse_risk_report (some content)).dist_low = 0) := by
  refine ⟨?_, ?_, ?_, ?_, ?_, ?_, ?_, ?_, ?_⟩ <;> intro hmiss
  · show (runCaught (reportBody content.toList)).global_health = 0
    unfold reportBody
    rw [setFloatStep_none lblHealth updHealth content.toList hmiss]
    rw [bind_ok_id]
    rw [peelC Metrics.global_health lblLow updLow content.toList (fun m v => rfl)]
    rw [peelC Metrics.global_health lblMed updMed content.toList (fun m v => rfl)]
    rw [peelC Metrics.global_health lblHigh updHigh content.toList (fun m v => rfl)]
    rw [peelC Metrics.global_health lblCrit updCrit content.toList (fun m v => rfl)]
    rw [peelF Metrics.global_health lblWash updWash content.toList (fun m v => rfl)]
    rw [peelF Metrics.global_health lblBot updBot content.toList (fun m v => rfl)]
    rw [peelF Metrics.global_health lblConc updConc content.toList (fun m v => rfl)]
    rw [peelF Metrics.global_health lblGlobalRisk updGlobalRisk content.toList (fun m v => rfl)]
    rfl
  · show (runCaught (reportBody content.toList)).global_risk = 0
    unfold reportBody
    rw [setFloatStep_none lblGlobalRisk updGlobalRisk content.toList hmiss]
    rw [bind_ok_id]
    rw [peelC Metrics.global_risk lblLow updLow content.toList (fun m v => rfl)]
    rw [peelC Metrics.global_risk lblMed updMed content.toList (fun m v => rfl)]
    rw [peelC Metrics.global_risk lblHigh updHigh content.toList (fun m v => rfl)]
    rw [peelC Metrics.global_risk lblCrit updCrit content.toList (fun m v => rfl)]
    rw [peelF Metrics.global_risk lblWash updWash content.toList (fun m v => rfl)]
    rw [peelF Metrics.global_risk lblBot updBot content.toList (fun m v => rfl)]
    rw [peelF Metrics.global_risk lblConc updConc content.toList (fun m v => rfl)]
    rw [peelF Metrics.global_risk lblHealth updHealth content.toList (fun m v => rfl)]
    rfl
  · show (runCaught (reportBody content.toList)).concentration_risk = 0
    unfold reportBody
    rw [setFloatStep_none lblConc updConc content.toList hmiss]
    rw [bind_ok_id]
    rw [peelC Metrics.concentration_risk lblLow updLow content.toList (fun m v => rfl)]
    rw [peelC Metrics.concentration_risk lblMed updMed content.toList (fun m v => rfl)]
    rw [peelC Metrics.concentration_risk lblHigh updHigh content.toList (fun m v => rfl)]
    rw [peelC Metrics.concentration_risk lblCrit updCrit content.toList (fun m v => rfl)]
    rw [peelF Metrics.concentration_risk lblWash updWash content.toList (fun m v => rfl)]
    rw [peelF Metrics.concentration_risk lblBot updBot content.toList (fun m v => rfl)]
    rw [peelF Metrics.concentration_risk lblGlobalRisk updGlobalRisk content.toList (fun m v => rfl)]
    rw [peelF Metrics.concentration_risk lblHealth updHealth content.toList (fun m v => rfl)]
    rfl
  · show (runCaught (reportBody content.toList)).bot_risk = 0
    unfold reportBody
    rw [setFloatStep_none lblBot updBot content.toList hmiss]
    rw [bind_ok_id]
    rw [peelC Metrics.bot_risk lblLow updLow content.toList (fun m v => rfl)]
    rw [peelC Metrics.bot_risk lblMed updMed content.toList (fun m v => rfl)]
    rw [peelC Metrics.bot_risk lblHigh updHigh content.toList (fun m v => rfl)]
    rw [peelC Metrics.bot_risk lblCrit updCrit content.toList (fun m v => rfl)]
    rw [peelF Metrics.bot_risk lblWash updWash content.toList (fun m v => rfl)]
    rw [peelF Metrics.bot_risk lblConc updConc content.toList (fun m v => rfl)]
    rw [peelF Metrics.bot_risk lblGlobalRisk updGlobalRisk content.toList (fun m v => rfl)]
    rw [peelF Metrics.bot_risk lblHealth updHealth content.toList (fun m v => rfl)]
    rfl
  · show (runCaught (reportBody content.toList)).wash_trading_risk = 0
    unfold reportBody
    rw [setFloatStep_none lblWash updWash content.toList hmiss]
    rw [bind_ok_id]
    rw [peelC Metrics.wash_trading_risk lblLow updLow content.toList (fun m v => rfl)]
    rw [peelC Metrics.wash_trading_risk lblMed updMed content.toList (fun m v => rfl)]
    rw [peelC Metrics.wash_trading_risk lblHigh updHigh content.toList (fun m v => rfl)]
    rw [peelC Metrics.wash_trading_risk lblCrit updCrit content.toList (fun m v => rfl)]
    rw [peelF Metrics.wash_trading_risk lblBot updBot content.toList (fun m v => rfl)]
    rw [peelF Metrics.wash_trading_risk lblConc updConc content.toList (fun m v => rfl)]
    rw [peelF Metrics.wash_trading_risk lblGlobalRisk updGlobalRisk content.toList (fun m v => rfl)]
    rw [peelF Metrics.wash_trading_risk lblHealth updHealth content.toList (fun m v => rfl)]
    rfl
  · show (runCaught (reportBody content.toList)).dist_critical = 0
    unfold reportBody
    rw [setCountStep_none lblCrit updCrit content.toList hmiss]
    rw [bind_ok_id]
    rw [peelC Metrics.dist_critical lblLow updLow content.toList (fun m v => rfl)]
    rw [peelC Metrics.dist_critical lblMed updMed content.toList (fun m v => rfl)]
    rw [peelC Metrics.dist_critical lblHigh updHigh content.toList (fun m v => rfl)]
    rw [peelF Metrics.dist_critical lblWash updWash content.toList (fun m v => rfl)]
    rw [peelF Metrics.dist_critical lblBot updBot content.toList (fun m v => rfl)]
    rw [peelF Metrics.dist_critical lblConc updConc content.toList (fun m v => rfl)]
    rw [peelF Metrics.dist_critical lblGlobalRisk updGlobalRisk content.toList (fun m v => rfl)]
    rw [peelF Metrics.dist_critical lblHealth updHealth content.toList (fun m v => rfl)]
    rfl
  · show (runCaught (reportBody content.toList)).dist_high = 0
    unfold reportBody
    rw [setCountStep_none lblHigh updHigh content.toList hmiss]
    rw [bind_ok_id]
    rw [peelC Metrics.dist_high lblLow updLow content.toList (fun m v => rfl)]
    rw [peelC Metrics.dist_high lblMed updMed content.toList (fun m v => rfl)]
    rw [peelC Metrics.dist_high lblCrit updCrit content.toList (fun m v => rfl)]
    rw [peelF Metrics.dist_high lblWash updWash content.toList (fun m v => rfl)]
    rw [peelF Metrics.dist_high lblBot updBot content.toList (fun m v => rfl)]
    rw [peelF Metrics.dist_high lblConc updConc content.toList (fun m v => rfl)]
    rw [peelF Metrics.dist_high lblGlobalRisk updGlobalRisk content.toList (fun m v => rfl)]
    rw [peelF Metrics.dist_high lblHealth updHealth content.toList (fun m v => rfl)]
    rfl
  · show (runCaught (reportBody content.toList)).dist_medium = 0
    unfold reportBody
    rw [setCountStep_none lblMed updMed content.toList hmiss]
    rw [bind_ok_id]
    rw [peelC Metrics.dist_medium lblLow updLow content.toList (fun m v => rfl)]
    rw [peelC Metrics.dist_medium lblHigh updHigh content.toList (fun m v => rfl)]
    rw [peelC Metrics.dist_medium lblCrit updCrit content.toList (fun m v => rfl)]
    rw [peelF Metrics.dist_medium lblWash updWash content.toList (fun m v => rfl)]
    rw [peelF Metrics.dist_medium lblBot updBot content.toList (fun m v => rfl)]
    rw [peelF Metrics.dist_medium lblConc updConc content.toList (fun m v => rfl)]
    rw [peelF Metrics.dist_medium lblGlobalRisk updGlobalRisk content.toList (fun m v => rfl)]
    rw [peelF Metrics.dist_medium lblHealth updHealth content.toList (fun m v => rfl)]
    rfl
  · show (runCaught (reportBody content.toList)).dist_low = 0
    unfold reportBody
    rw [setCountStep_none lblLow updLow content.toList hmiss]
    rw [bind_ok_id]
    rw [peelC Metrics.dist_low lblMed updMed content.toList (fun m v => rfl)]
    rw [peelC Metrics.dist_low lblHigh updHigh content.toList (fun m v => rfl)]
    rw [peelC Metrics.dist_low lblCrit updCrit content.toList (fun m v => rfl)]
    rw [peelF Metrics.dist_low lblWash updWash content.toList (fun m v => rfl)]
    rw [peelF Metrics.dist_low lblBot updBot content.toList (fun m v => rfl)]
    rw [peelF Metrics.dist_low lblConc updConc content.toList (fun m v => rfl)]
    rw [peelF Metrics.dist_low lblGlobalRisk updGlobalRisk content.toList (fun m v => rfl)]
    rw [peelF Metrics.dist_low lblHealth updHealth content.toList (fun m v => rfl)]
    rfl

/-- A report text with all labeled lines except "Bot Activity Risk". -/
def botlessReport : String :=
  "TOKEN GLOBAL HEALTH SCORE: 80.5\nGlobal Risk Score: 19.5\nConcentration Risk: 10.0\nWash Trading Risk: 5.0\nCRITICAL : 1 wallets\nHIGH : 2 wallets\nMEDIUM : 3 wallets\nLOW : 4 wallets"

theorem c5_witness :
    (parse_risk_report (some botlessReport)).bot_risk = 0 :=
  (c5_report_lines_optional botlessReport).2.2.2.1 (by decide)

/-- C10: the report parser is total over file-read outcomes: an unreadable
file (the `open` call raising) yields the all-default metrics record, whose
nine fields are all zero; a readable file always yields the metrics record of
the `try` body with any exception caught (`runCaught`), never an exception —
e.g. a report whose "Bot Activity Risk" value makes `float()` raise still
returns a metrics record. -/
theorem c10_report_parser_total :
    parse_risk_report none = ({} : Metrics)
  ∧ ({} : Metrics) = ⟨0, 0, 0, 0, 0, 0, 0, 0, 0⟩
  ∧ (∀ content : String,
      parse_risk_report (some content) = runCaught (reportBody content.toList))
  ∧ parse_risk_report (some "Bot Activity Risk: .") = ({} : Metrics) :=
  ⟨rfl, rfl, fun _ => rfl, by decide⟩

/-! ## CSV load and Top-10 selection (dashboard.py lines 113-124, 240-266)

`pd.read_csv` output is modelled as a list of raw rows (cells as text);
`load_csv_data` applies the `pd.to_numeric(..., errors='coerce')` coercion to
the `risk_score` column, turning a non-numeric cell into NaN (`none`) instead
of raising.  `csv_df.sort_values(by='risk_score', ascending=False).head(10)`
goes through pandas `nargsort` (pandas/core/sorting.py): the non-NaN values
and their positions are reversed, argsorted ascending, the indexer is reversed
again and the NaN positions are appended at the end (`na_position='last'`).
The source passes no `kind`, so the ascending argsort kernel is pandas'
default `kind='quicksort'` (numpy introsort), which pandas documents as NOT
stable: for arrays above numpy's 16-element insertion-sort cutoff, the order
of equal keys is an implementation detail the program does not pin down.  We
therefore model the kernel twice: `sortValuesDescSpec` (below) is the
relational semantics quantifying over every ascending permutation the
contract admits, and `nargsortDesc` is the particular stable-kernel behavior
(exact whenever the kernel degenerates to numpy's insertion sort, i.e. tables
of at most 16 rows, and for the `mergesort`/`stable` kinds). -/

structure RawRow where
  wallet : String
  risk_score : String
  risk_level : String
  bot_classification : String
  wash_trading_flags : String
deriving DecidableEq

structure Row where
  wallet : String
  risk_score : Option ℚ
  risk_level : String
  bot_classification : String
  wash_trading_flags : String
deriving DecidableEq

/-- `pd.to_numeric(..., errors='coerce')` on one cell, modelled for plain
(optionally signed) decimal literals; any other cell coerces to NaN (`none`). -/
def pyToNumeric (s : String) : Option ℚ :=
  let cs := s.toList
  let body := if cs.head? = some '-' ∨ cs.head? = some '+' then cs.drop 1 else cs
  if body.count '.' ≤ 1 ∧ body.any Char.isDigit ∧ body.all isFloatChar then
    let v := digitsVal (body.takeWhile (· ≠ '.')) +
      digitsVal ((body.dropWhile (· ≠ '.')).drop 1) /
        (10 ^ ((body.dropWhile (· ≠ '.')).drop 1).length)
    some (if cs.head? = some '-' then -v else v)
  else none

/-- `load_csv_data` (dashboard.py lines 113-124): read the table and coerce the
`risk_score` column to numeric. -/
def load_csv_data (rows : List RawRow) : List Row :=
  rows.map fun r =>
    { wallet := r.wallet
      risk_score := pyToNumeric r.risk_score
      risk_level := r.risk_level
      bot_classification := r.bot_classification
      wash_trading_flags := r.wash_trading_flags }

/-- The (coerced) risk_score of row `i`; `none` = NaN or out of range. -/
def scoreAt (df : List Row) (i : ℕ) : Option ℚ := df[i]?.bind Row.risk_score

/-- The value used by the sort comparisons (only applied at non-NaN rows). -/
def valAt (df : List Row) (i : ℕ) : ℚ := (scoreAt df i).getD 0

/-- Comparison of two row positions by value, as the argsort kernel sees it. -/
def valLe (df : List Row) (i j : ℕ) : Prop := valAt df i ≤ valAt df j

instance (df : List Row) : DecidableRel (valLe df) := fun i j =>
  inferInstanceAs (Decidable (valAt df i ≤ valAt df j))

/-- pandas `nargsort(ascending=False, na_position='last')` on the risk_score
column, as a permutation (list of original row indices), instantiated with a
STABLE ascending kernel.  This is one behavior admitted by the contract
(`sortValuesDescSpec` below quantifies over all of them): it coincides with
the source's default quicksort kernel exactly when that kernel is numpy's
insertion sort (arrays of at most 16 elements) and with the
`mergesort`/`stable` kinds; above the cutoff the source's tie order is
unspecified. -/
def nargsortDesc (df : List Row) : List ℕ :=
  let idx := List.range df.length
  let nonNan := idx.filter fun i => (scoreAt df i).isSome
  let nanIdx := idx.filter fun i => (scoreAt df i).isNone
  (List.insertionSort (valLe df) nonNan.reverse).reverse ++ nanIdx

/-- `csv_df.sort_values(by='risk_score', ascending=False).head(10)` (line
249), as the list of original row indices of the displayed rows. -/
def top_10 (df : List Row) : List ℕ := (nargsortDesc df).take 10

/-- The strict total order that characterizes the stable ascending argsort of
the reversed index list: by value, ties by descending original position. -/
def lexLe (df : List Row) (i j : ℕ) : Prop :=
  valAt df i < valAt df j ∨ (valAt df i = valAt df j ∧ j ≤ i)

instance (df : List Row) : DecidableRel (lexLe df) := fun i j =>
  inferInstanceAs (Decidable (valAt df i < valAt df j ∨ (valAt df i = valAt df j ∧ j ≤ i)))

instance (df : List Row) : IsTotal ℕ (lexLe df) where
  total i j := by
    rcases lt_trichotomy (valAt df i) (valAt df j) with h | h | h
    · exact Or.inl (Or.inl h)
    · rcases Nat.le_total j i with hij | hij
      · exact Or.inl (Or.inr ⟨h, hij⟩)
      · exact Or.inr (Or.inr ⟨h.symm, hij⟩)
    · exact Or.inr (Or.inl h)

instance (df : List Row) : IsTrans ℕ (lexLe df) where
  trans i j k hij hjk := by
    rcases hij with h1 | ⟨h1, h1'⟩
    · rcases hjk with h2 | ⟨h2, _⟩
      · exact Or.inl (h1.trans h2)
      · exact Or.inl (h2 ▸ h1)
    · rcases hjk with h2 | ⟨h2, h2'⟩
      · exact Or.inl (h1 ▸ h2)
      · exact Or.inr ⟨h1.trans h2, h2'.trans h1'⟩

/-- Inserting an element whose position is above everything in the list makes
the value-only comparison agree with the lexicographic one (this is exactly
the stability of insertion into an already-processed suffix). -/
theorem orderedInsert_val_lex (df : List Row) (a : ℕ) (L : List ℕ)
    (ha : ∀ x ∈ L, x < a) :
    List.orderedInsert (valLe df) a L = List.orderedInsert (lexLe df) a L := by
  induction L with
  | nil => rfl
  | cons x t ih =>
    have hx : x < a := ha x (List.mem_cons_self x t)
    have hiff : valLe df a x ↔ lexLe df a x := by
      constructor
      · intro h
        rcases lt_or_eq_of_le h with h' | h'
        · exact Or.inl h'
        · exact Or.inr ⟨h', Nat.le_of_lt hx⟩
      · intro h
        rcases h with h' | ⟨h', _⟩
        · exact le_of_lt h'
        · exact le_of_eq h'
    by_cases hc : valLe df a x
    · rw [List.orderedInsert, List.orderedInsert, if_pos hc, if_pos (hiff.mp hc)]
    · rw [List.orderedInsert, List.orderedInsert, if_neg hc,
        if_neg (fun h => hc (hiff.mpr h)),
        ih fun y hy => ha y (List.mem_cons_of_mem x hy)]

/-- On a strictly decreasing index list (which is how pandas feeds the kernel
for a descending sort), the stable value-sort coincides with sorting by the
antisymmetric lexicographic order. -/
theorem insertionSort_val_lex (df : List Row) (l : List ℕ)
    (hl : l.Pairwise fun a b => b < a) :
    List.insertionSort (valLe df) l = List.insertionSort (lexLe df) l := by
  induction l with
  | nil => rfl
  | cons a t ih =>
    rw [List.insertionSort, List.insertionSort, ih (List.Pairwise.of_cons hl)]
    refine orderedInsert_val_lex df a _ fun x hx => ?_
    have hx' : x ∈ t := (List.perm_insertionSort (lexLe df) t).subset hx
    exact (List.pairwise_cons.mp hl).1 x hx'

/-- The sorted (non-NaN) part of the descending indexer. -/
def sortedPart (df : List Row) : List ℕ :=
  (List.insertionSort (lexLe df)
    (((List.range df.length).filter fun i => (scoreAt df i).isSome).reverse)).reverse

/-- The NaN positions, appended last by `na_position='last'`. -/
def nanPart (df : List Row) : List ℕ :=
  (List.range df.length).filter fun i => (scoreAt df i).isNone

theorem nargsortDesc_eq (df : List Row) :
    nargsortDesc df = sortedPart df ++ nanPart df := by
  have hp : ((((List.range df.length).filter fun i =>
      (scoreAt df i).isSome)).reverse).Pairwise (fun a b => b < a) := by
    rw [List.pairwise_reverse]
    exact (List.pairwise_lt_range df.length).filter _
  show (List.insertionSort (valLe df)
      (((List.range df.length).filter fun i => (scoreAt df i).isSome).reverse)).reverse
    ++ ((List.range df.length).filter fun i => (scoreAt df i).isNone)
    = sortedPart df ++ nanPart df
  rw [insertionSort_val_lex df _ hp]
  rfl

theorem sortedPart_perm (df : List Row) :
    (sortedPart df).Perm ((List.range df.length).filter fun i => (scoreAt df i).isSome) :=
  ((List.reverse_perm _).trans (List.perm_insertionSort _ _)).trans (List.reverse_perm _)

theorem sortedPart_pairwise (df : List Row) :
    (sortedPart df).Pairwise fun i j => lexLe df j i := by
  unfold sortedPart
  rw [List.pairwise_reverse]
  exact List.sorted_insertionSort (lexLe df) _

theorem sortedPart_nodup (df : List Row) : (sortedPart df).Nodup :=
  ((sortedPart_perm df).nodup_iff).mpr ((List.nodup_range df.length).filter _)

theorem scoreAt_isSome_of_mem (df : List Row)
    (hall : ∀ r ∈ df, r.risk_score.isSome = true) (i : ℕ) (hi : i < df.length) :
    (scoreAt df i).isSome = true := by
  unfold scoreAt
  rw [List.getElem?_eq_getElem hi]
  exact hall df[i] (List.getElem_mem hi)

theorem nanPart_nil (df : List Row)
    (hall : ∀ r ∈ df, r.risk_score.isSome = true) : nanPart df = [] := by
  rw [nanPart, List.filter_eq_nil_iff]
  intro i hi
  rw [List.mem_range] at hi
  have h := scoreAt_isSome_of_mem df hall i hi
  intro hcontra
  rw [Option.isNone_iff_eq_none] at hcontra
  rw [hcontra] at h
  exact Bool.noConfusion h

theorem somePart_all (df : List Row)
    (hall : ∀ r ∈ df, r.risk_score.isSome = true) :
    ((List.range df.length).filter fun i => (scoreAt df i).isSome) =
      List.range df.length := by
  rw [List.filter_eq_self]
  intro i hi
  rw [List.mem_range] at hi
  exact scoreAt_isSome_of_mem df hall i hi

/-- What the pandas/numpy contract guarantees of the ascending argsort kernel
invoked by `sort_values` with the default `kind='quicksort'`: SOME permutation
of the given positions in ascending value order.  pandas documents this kind
as not stable, and the repository pins no kernel, so the order of equal
values is a free choice of this relation (numpy introsort above the
16-element cutoff, or whatever SIMD dispatch selects). -/
def ascArgsortSpec (df : List Row) (l out : List ℕ) : Prop :=
  out.Perm l ∧ out.Pairwise (valLe df)

/-- The outputs `csv_df.sort_values(by='risk_score', ascending=False)`
(dashboard.py line 249) may produce, per the pandas `nargsort` chain (reverse
the non-NaN positions, kernel argsort ascending, reverse the indexer, NaNs
appended last), quantified over every kernel behavior the contract admits. -/
def sortValuesDescSpec (df : List Row) (out : List ℕ) : Prop :=
  ∃ kernelOut : List ℕ,
    ascArgsortSpec df
      (((List.range df.length).filter fun i => (scoreAt df i).isSome).reverse) kernelOut ∧
    out = kernelOut.reverse ++ nanPart df

/-- The possible index sequences of the displayed `head(10)` table. -/
def top10Spec (df : List Row) (out : List ℕ) : Prop :=
  ∃ full, sortValuesDescSpec df full ∧ out = full.take 10

/-- The stable-kernel instance is one behavior the contract admits. -/
theorem nargsortDesc_mem_spec (df : List Row) :
    sortValuesDescSpec df (nargsortDesc df) := by
  refine ⟨List.insertionSort (lexLe df)
      (((List.range df.length).filter fun i => (scoreAt df i).isSome).reverse),
    ⟨List.perm_insertionSort _ _, ?_⟩, ?_⟩
  · refine (List.sorted_insertionSort (lexLe df) _).imp fun {i j} h => ?_
    rcases h with h | ⟨h, _⟩
    · exact le_of_lt h
    · exact le_of_eq h
  · rw [nargsortDesc_eq]
    rfl

/-- C3, amended: for a loaded table with (at least) ten numerically scored
rows, EVERY output the sort contract admits shows exactly ten rows, ordered
by `risk_score` descending, all of maximal score among the table's rows; but
the relative order of rows with equal `risk_score` is only guaranteed under a
stable kernel behavior — which the source's default quicksort provides
exactly for tables of at most 16 rows (numpy's insertion-sort cutoff),
covering the spec's 15-wallet example — where ties keep their original table
order.  (See `c3_tie_order_counterexample` for the unstable side.) -/
theorem c3_top10_amended (df : List Row)
    (hall : ∀ r ∈ df, r.risk_score.isSome = true) (hlen : 10 ≤ df.length) :
    (∀ out, top10Spec df out →
        out.length = 10
      ∧ out.Pairwise (fun i j => valAt df j ≤ valAt df i)
      ∧ (∀ i ∈ out, i < df.length)
      ∧ (∀ i ∈ out, ∀ j, j < df.length → j ∉ out → valAt df j ≤ valAt df i))
  ∧ top10Spec df (top_10 df)
  ∧ (top_10 df).Pairwise
      (fun i j => valAt df j < valAt df i ∨ (valAt df j = valAt df i ∧ i < j)) := by
  have hnan : nanPart df = [] := nanPart_nil df hall
  refine ⟨?_, ⟨nargsortDesc df, nargsortDesc_mem_spec df, rfl⟩, ?_⟩
  · intro out hout
    obtain ⟨full, ⟨ker, ⟨hkperm0, hksort⟩, hfull⟩, hout10⟩ := hout
    rw [hnan, List.append_nil] at hfull
    subst hfull
    subst hout10
    have hkperm : ker.Perm (List.range df.length) := by
      have h1 := hkperm0.trans (List.reverse_perm _)
      rwa [somePart_all df hall] at h1
    have hklen : ker.reverse.length = df.length := by
      rw [List.length_reverse, hkperm.length_eq, List.length_range]
    have hrevsort : ker.reverse.Pairwise (fun i j => valAt df j ≤ valAt df i) := by
      rw [List.pairwise_reverse]
      exact hksort
    refine ⟨?_, ?_, ?_, ?_⟩
    · rw [List.length_take, hklen]
      exact Nat.min_eq_left hlen
    · exact List.Pairwise.sublist (List.take_sublist 10 _) hrevsort
    · intro i hi
      have h := hkperm.subset (List.mem_reverse.mp (List.take_subset 10 _ hi))
      exact List.mem_range.mp h
    · intro i hi j hj hj2
      have hsplit := List.take_append_drop 10 ker.reverse
      have hPW : (ker.reverse.take 10 ++ ker.reverse.drop 10).Pairwise
          (fun i j => valAt df j ≤ valAt df i) := by
        rw [hsplit]
        exact hrevsort
      have h3 := (List.pairwise_append.mp hPW).2.2
      have hjS : j ∈ ker.reverse := by
        rw [List.mem_reverse]
        exact hkperm.symm.subset (List.mem_range.mpr hj)
      have hjd : j ∈ ker.reverse.drop 10 := by
        have hj' : j ∈ ker.reverse.take 10 ++ ker.reverse.drop 10 := by
          rw [hsplit]
          exact hjS
        rcases List.mem_append.mp hj' with h | h
        · exact absurd h hj2
        · exact h
      exact h3 i hi j hjd
  · have hns : nargsortDesc df = sortedPart df := by
      rw [nargsortDesc_eq, hnan, List.append_nil]
    have htop : top_10 df = (sortedPart df).take 10 := by rw [top_10, hns]
    have h1 := sortedPart_pairwise df
    have h2 : (sortedPart df).Pairwise (fun i j => i ≠ j) := sortedPart_nodup df
    have h3 := h1.and h2
    rw [htop]
    refine (List.Pairwise.sublist (List.take_sublist 10 _) h3).imp ?_
    rintro i j ⟨hlex, hne⟩
    rcases hlex with h | ⟨h, hle⟩
    · exact Or.inl h
    · exact Or.inr ⟨h, Nat.lt_of_le_of_ne hle hne⟩

def mkRow (w : String) (q : ℚ) : Row :=
  { wallet := w, risk_score := some q, risk_level := "",
    bot_classification := "", wash_trading_flags := "" }

/-- The spec's example: 15 wallets with risk_scores 99, 95, 95, 80, ... -/
def df15 : List Row :=
  [mkRow "w0" 99, mkRow "w1" 95, mkRow "w2" 95, mkRow "w3" 80, mkRow "w4" 79,
   mkRow "w5" 78, mkRow "w6" 77, mkRow "w7" 76, mkRow "w8" 75, mkRow "w9" 74,
   mkRow "w10" 73, mkRow "w11" 72, mkRow "w12" 71, mkRow "w13" 70, mkRow "w14" 69]

theorem c3_amended_witness :
    top10Spec df15 (top_10 df15)
  ∧ (top_10 df15).Pairwise
      (fun i j => valAt df15 j < valAt df15 i ∨ (valAt df15 j = valAt df15 i ∧ i < j)) :=
  ⟨(c3_top10_amended df15 (by decide) (by decide)).2.1,
   (c3_top10_amended df15 (by decide) (by decide)).2.2⟩

/-- A 17-row table — above numpy's insertion-sort cutoff, so the source's
default quicksort kernel gives no stability guarantee — with a tie at 95. -/
def df17 : List Row :=
  [mkRow "w0" 99, mkRow "w1" 95, mkRow "w2" 95, mkRow "w3" 80, mkRow "w4" 79,
   mkRow "w5" 78, mkRow "w6" 77, mkRow "w7" 76, mkRow "w8" 75, mkRow "w9" 74,
   mkRow "w10" 73, mkRow "w11" 72, mkRow "w12" 71, mkRow "w13" 70, mkRow "w14" 69,
   mkRow "w15" 68, mkRow "w16" 67]

/-- C3 counterexample: the claim as stated — every loaded table keeps equal
scores in original table order — is false of the program's guaranteed
behavior.  At this concrete 17-row table the sort contract admits the
displayed sequence w0, w2, w1, ... (rows 1 and 2 both score 95, shown in
REVERSED table order): the unstable kernel may emit it, and no part of the
repository rules it out.  The second conjunct checks this output violates
the claimed tie ordering. -/
theorem c3_tie_order_counterexample :
    top10Spec df17 [0, 2, 1, 3, 4, 5, 6, 7, 8, 9]
  ∧ ¬ ([0, 2, 1, 3, 4, 5, 6, 7, 8, 9] : List ℕ).Pairwise
      (fun i j => valAt df17 j < valAt df17 i ∨ (valAt df17 j = valAt df17 i ∧ i < j)) := by
  constructor
  · refine ⟨[0, 2, 1, 3, 4, 5, 6, 7, 8, 9, 10, 11, 12, 13, 14, 15, 16],
      ⟨[16, 15, 14, 13, 12, 11, 10, 9, 8, 7, 6, 5, 4, 3, 1, 2, 0], ⟨?_, ?_⟩, ?_⟩, ?_⟩
    · decide
    · decide
    · decide
    · decide
  · decide

/-- C6: a non-numeric `risk_score` cell is coerced to NaN by the load rather
than raising (the load is total and row-count preserving), and with at least
ten numerically scored rows the NaN row is excluded from the numeric top-10
ordering: it is never displayed, the table still shows ten rows, and every
displayed row has a numeric score. -/
theorem c6_non_numeric_coerced (rows : List RawRow) (b : ℕ) (rb : RawRow)
    (hget : rows[b]? = some rb)
    (hbad : pyToNumeric rb.risk_score = none)
    (hgood : 10 ≤ (((List.range (load_csv_data rows).length).filter
        fun i => (scoreAt (load_csv_data rows) i).isSome)).length) :
    (load_csv_data rows).length = rows.length
  ∧ scoreAt (load_csv_data rows) b = none
  ∧ b ∉ top_10 (load_csv_data rows)
  ∧ (top_10 (load_csv_data rows)).length = 10
  ∧ ∀ i ∈ top_10 (load_csv_data rows),
      (scoreAt (load_csv_data rows) i).isSome = true := by
  have hlen : (load_csv_data rows).length = rows.length := List.length_map _ _
  have hscore : scoreAt (load_csv_data rows) b = none := by
    unfold scoreAt load_csv_data
    rw [List.getElem?_map, hget]
    exact hbad
  have hlenS : 10 ≤ (sortedPart (load_csv_data rows)).length := by
    rw [(sortedPart_perm (load_csv_data rows)).length_eq]
    exact hgood
  have htop : top_10 (load_csv_data rows) = (sortedPart (load_csv_data rows)).take 10 := by
    rw [top_10, nargsortDesc_eq, List.take_append_of_le_length hlenS]
  have hmemS : ∀ i ∈ top_10 (load_csv_data rows),
      (scoreAt (load_csv_data rows) i).isSome = true := by
    intro i hi
    rw [htop] at hi
    have h := (sortedPart_perm (load_csv_data rows)).subset (List.take_subset 10 _ hi)
    exact (List.mem_filter.mp h).2
  refine ⟨hlen, hscore, ?_, ?_, hmemS⟩
  · intro hb
    have h := hmemS b hb
    rw [hscore] at h
    exact Bool.noConfusion h
  · rw [htop, List.length_take]
    exact Nat.min_eq_left hlenS

def rows11 : List RawRow :=
  [⟨"w0", "10", "", "", ""⟩, ⟨"w1", "9", "", "", ""⟩, ⟨"w2", "8", "", "", ""⟩,
   ⟨"w3", "7", "", "", ""⟩, ⟨"w4", "6", "", "", ""⟩, ⟨"w5", "abc", "", "", ""⟩,
   ⟨"w6", "5", "", "", ""⟩, ⟨"w7", "4", "", "", ""⟩, ⟨"w8", "3", "", "", ""⟩,
   ⟨"w9", "2", "", "", ""⟩, ⟨"w10", "1", "", "", ""⟩]

theorem c6_witness :
    5 ∉ top_10 (load_csv_data rows11)
  ∧ (top_10 (load_csv_data rows11)).length = 10 :=
  ⟨(c6_non_numeric_coerced rows11 5 ⟨"w5", "abc", "", "", ""⟩
      (by rfl) (by rfl) (by decide)).2.2.1,
   (c6_non_numeric_coerced rows11 5 ⟨"w5", "abc", "", "", ""⟩
      (by rfl) (by rfl) (by decide)).2.2.2.1⟩

/-! ## General properties of the filename search -/

theorem findSome?_cons_eq {α β : Type} (f : α → Option β) (x : α) (l : List α)
    {v : β} (h : f x = some v) : (x :: l).findSome? f = some v := by
  rw [List.findSome?_cons_of_isSome l (by rw [h]; rfl)]
  exact h

theorem findSome?_append_cons {α β : Type} (f : α → Option β) (l₁ l₂ : List α)
    (x : α) {v : β} (h1 : ∀ y ∈ l₁, f y = none) (h2 : f x = some v) :
    (l₁ ++ x :: l₂).findSome? f = some v := by
  induction l₁ with
  | nil => exact findSome?_cons_eq f x l₂ h2
  | cons y ys ih =>
    have hy : f y = none := h1 y (List.mem_cons_self y ys)
    rw [List.cons_append, List.findSome?_cons_of_isNone _ (by rw [hy]; rfl)]
    exact ih fun z hz => h1 z (List.mem_cons_of_mem y hz)

theorem findSome?_isSome_of_mem {α β : Type} (f : α → Option β) (l : List α) (x : α)
    (hx : x ∈ l) (hf : (f x).isSome = true) : (l.findSome? f).isSome = true := by
  induction l with
  | nil => cases hx
  | cons y ys ih =>
    cases hfy : f y with
    | some v =>
      rw [List.findSome?_cons_of_isSome ys (by rw [hfy]; rfl), hfy]
      rfl
    | none =>
      rw [List.findSome?_cons_of_isNone ys (by rw [hfy]; rfl)]
      rcases List.mem_cons.mp hx with rfl | hx'
      · rw [hfy] at hf
        exact Bool.noConfusion hf
      · exact ih hx'

/-- The rigid suffix appended to a token by the `analysis`-kind convention
with the fixed example timestamp. -/
def suffixAnalysis : List Char := "_risk_analysis_20240101_120000.csv".toList

theorem tail_suffix : tailAt suffixAnalysis = some ("analysis", "20240101_120000") := by
  decide

theorem tail_suffix_drop (k : ℕ) (hk : 1 ≤ k) :
    tailAt (suffixAnalysis.drop k) = none := by
  by_cases h : k < 35
  · exact (by decide :
      ∀ k : Fin 35, 1 ≤ k.val → tailAt (suffixAnalysis.drop k.val) = none) ⟨k, h⟩ hk
  · rw [List.drop_eq_nil_iff.mpr (by simp [suffixAnalysis]; omega)]
    rfl

theorem tryMatch_none_of_tail_none (s : List Char) (i j : ℕ)
    (h : tailAt (s.drop j) = none) : tryMatch s i j = none := by
  unfold tryMatch
  rw [h]

/-- The greedy search on `token ++ rigid-suffix` matches with the whole token
as group 1: the rightmost tail position is exactly the token's length. -/
theorem reSearch_append_suffix (T : List Char) (hT : T ≠ [])
    (hnl : ∀ c ∈ T, notNL c = true) :
    reSearch (T ++ suffixAnalysis) =
      some (0, T.length, "analysis", "20240101_120000") := by
  set s := T ++ suffixAnalysis with hs
  have hslen : s.length = T.length + 34 := by
    rw [hs, List.length_append]
    rfl
  have hdropT : s.drop T.length = suffixAnalysis := List.drop_left T suffixAnalysis
  have htakeT : s.take T.length = T := List.take_left T suffixAnalysis
  have htry0 : tryMatch s 0 T.length =
      some (0, T.length, "analysis", "20240101_120000") := by
    unfold tryMatch
    rw [hdropT, tail_suffix]
    show (if 0 < T.length then
        if noNL ((s.drop 0).take (T.length - 0)) then
          some (0, T.length, "analysis", "20240101_120000")
        else none
      else none) = some (0, T.length, "analysis", "20240101_120000")
    have h0 : 0 < T.length := List.length_pos.mpr hT
    rw [if_pos h0]
    have hnoNL : noNL ((s.drop 0).take (T.length - 0)) = true := by
      rw [List.drop_zero, Nat.sub_zero, htakeT]
      exact List.all_eq_true.mpr hnl
    rw [if_pos hnoNL]
  have htail_none : ∀ k, 1 ≤ k → tailAt (s.drop (T.length + k)) = none := by
    intro k hk
    have hd : s.drop (T.length + k) = suffixAnalysis.drop k := by
      rw [hs]
      exact List.drop_append k
    rw [hd]
    exact tail_suffix_drop k hk
  have hinner : ((List.range (s.length + 1)).reverse).findSome?
      (fun j => tryMatch s 0 j) =
      some (0, T.length, "analysis", "20240101_120000") := by
    have hrange : List.range (s.length + 1) =
        List.range T.length ++ (List.range 35).map (T.length + ·) := by
      rw [hslen]
      exact List.range_add T.length 35
    have hr35 : List.range 35 = 0 :: (List.range 34).map Nat.succ :=
      List.range_succ_eq_map 34
    rw [hrange, List.reverse_append, hr35, List.map_cons, List.reverse_cons,
      List.append_assoc, List.singleton_append]
    refine findSome?_append_cons _ _ _ _ ?_ ?_
    · intro y hy
      rw [List.mem_reverse, List.mem_map] at hy
      obtain ⟨z, hz, rfl⟩ := hy
      rw [List.mem_map] at hz
      obtain ⟨k, _, rfl⟩ := hz
      exact tryMatch_none_of_tail_none s 0 _
        (htail_none (Nat.succ k) (Nat.succ_le_succ (Nat.zero_le k)))
    · show tryMatch s 0 (T.length + 0) = _
      rw [Nat.add_zero]
      exact htry0
  unfold reSearch
  rw [show List.range s.length = 0 :: (List.range (T.length + 33)).map Nat.succ by
    rw [hslen]
    exact List.range_succ_eq_map (T.length + 33)]
  exact findSome?_cons_eq _ 0 _ hinner

/-- C7: the filename parser rejects `foo.csv` (no `_risk_` marker) and accepts
`ABC_risk_analysis_20240101_120000.csv` as Token="ABC",
Timestamp="20240101_120000", Kind="analysis"; and for every nonempty
newline-free token — underscores included — the greedy group takes exactly the
token, because the literal `risk` and the kind token disambiguate the parse. -/
theorem c7_filename_parse_rules :
    parse_filename "foo.csv" = none
  ∧ parse_filename "ABC_risk_analysis_20240101_120000.csv" =
      some ("ABC", "20240101_120000", "analysis")
  ∧ ∀ t : String, t ≠ "" → (∀ c ∈ t.toList, c ≠ '\n') →
      parse_filename (t ++ "_risk_analysis_20240101_120000.csv") =
        some (t, "20240101_120000", "analysis") := by
  refine ⟨by decide, by decide, fun t ht hnl => ?_⟩
  have hT : t.toList ≠ [] := by
    intro h
    exact ht (String.ext h)
  have hlist : (t ++ "_risk_analysis_20240101_120000.csv").toList =
      t.toList ++ suffixAnalysis := by
    show (t ++ "_risk_analysis_20240101_120000.csv").data = t.data ++ suffixAnalysis
    rw [String.data_append]
    rfl
  unfold parse_filename
  rw [hlist, reSearch_append_suffix t.toList hT
    (fun c hc => decide_eq_true (hnl c hc))]
  show some ((((t.toList ++ suffixAnalysis).drop 0).take (t.toList.length - 0)).asString,
      "20240101_120000", "analysis") = some (t, "20240101_120000", "analysis")
  rw [List.drop_zero, Nat.sub_zero, List.take_left]
  rfl

theorem c7_witness :
    parse_filename ("MY_COOL_TOKEN" ++ "_risk_analysis_20240101_120000.csv") =
      some ("MY_COOL_TOKEN", "20240101_120000", "analysis") :=
  c7_filename_parse_rules.2.2 "MY_COOL_TOKEN" (by decide) (by decide)

/-- C9 (implicit behavior): the pattern is matched as an unanchored substring
and kind is never cross-checked against the extension: trailing characters
after the extension are accepted, `ABC_risk_report_20240101_120000.csv` parses
as Kind="report" despite `.csv`, and any filename containing
`<non-newline char><rigid tail>` anywhere yields a parsed triple. -/
theorem c9_unanchored_no_crosscheck :
    parse_filename "ABC_risk_analysis_20240101_120000.csv.bak" =
      some ("ABC", "20240101_120000", "analysis")
  ∧ parse_filename "ABC_risk_report_20240101_120000.csv" =
      some ("ABC", "20240101_120000", "report")
  ∧ ∀ (s : String) (j : ℕ) (c : Char), 1 ≤ j →
      (tailAt (s.toList.drop j)).isSome = true →
      s.toList[j - 1]? = some c → c ≠ '\n' →
      (parse_filename s).isSome = true := by
  refine ⟨by decide, by decide, fun s j c hj htail hget hc => ?_⟩
  obtain ⟨kd, hkd⟩ := Option.isSome_iff_exists.mp htail
  have hjlt : j < s.toList.length := by
    by_contra hcon
    rw [List.drop_eq_nil_iff.mpr (Nat.le_of_not_lt hcon)] at hkd
    exact Option.noConfusion hkd
  have htry : (tryMatch s.toList (j - 1) j).isSome = true := by
    unfold tryMatch
    rw [hkd]
    show (if j - 1 < j then
        if noNL ((s.toList.drop (j - 1)).take (j - (j - 1))) then
          some (j - 1, j, kd.1, kd.2)
        else none
      else none).isSome = true
    have hlt : j - 1 < j := Nat.sub_lt (Nat.lt_of_lt_of_le Nat.zero_lt_one hj) Nat.zero_lt_one
    rw [if_pos hlt]
    have htake : ((s.toList.drop (j - 1)).take (j - (j - 1))) = [c] := by
      have h1 : j - (j - 1) = 1 := by omega
      rw [h1]
      have h0 : (s.toList.drop (j - 1))[0]? = some c := by
        rw [List.getElem?_drop]
        rw [Nat.add_zero]
        exact hget
      cases hdl : s.toList.drop (j - 1) with
      | nil =>
        rw [hdl] at h0
        exact Option.noConfusion h0
      | cons a l =>
        rw [hdl] at h0
        simp at h0
        rw [h0]
        rfl
    rw [htake]
    have hnoNL : noNL [c] = true := by
      show (notNL c && true) = true
      rw [Bool.and_true]
      exact decide_eq_true hc
    rw [if_pos hnoNL]
    rfl
  have hinner : (((List.range (s.toList.length + 1)).reverse).findSome?
      (fun j' => tryMatch s.toList (j - 1) j')).isSome = true := by
    refine findSome?_isSome_of_mem _ _ j ?_ htry
    rw [List.mem_reverse, List.mem_range]
    omega
  have houter : (reSearch s.toList).isSome = true := by
    unfold reSearch
    refine findSome?_isSome_of_mem _ _ (j - 1) ?_ hinner
    rw [List.mem_range]
    omega
  obtain ⟨q, hq⟩ := Option.isSome_iff_exists.mp houter
  unfold parse_filename
  rw [hq]
  obtain ⟨i', j', k', d'⟩ := q
  rfl

theorem c9_witness :
    (parse_filename "x_risk_report_99999999_999999.txtJUNK").isSome = true :=
  c9_unanchored_no_crosscheck.2.2 "x_risk_report_99999999_999999.txtJUNK" 1 'x'
    (by decide) (by decide) (by decide) (by decide)

/-! ## Discovery determinism (C8) -/

theorem alookup_nil {β : Type} (key : String) :
    alookup ([] : List (String × β)) key = none := rfl

theorem alookup_cons {β : Type} (k₁ : String) (v₁ : β) (m : List (String × β))
    (key : String) :
    alookup ((k₁, v₁) :: m) key = if k₁ = key then some v₁ else alookup m key := rfl

theorem alookup_mapSet {β : Type} (m : List (String × β)) (k : String) (v : β)
    (key : String) :
    alookup (m.map fun p => if p.1 = k then (k, v) else p) key =
      if key = k then (alookup m k).map (fun _ => v) else alookup m key := by
  induction m with
  | nil =>
    by_cases h : key = k <;> simp [alookup_nil, h]
  | cons a m ih =>
    obtain ⟨k₁, v₁⟩ := a
    rw [List.map_cons,
      show (if (k₁, v₁).1 = k then (k, v) else (k₁, v₁)) =
        if k₁ = k then (k, v) else (k₁, v₁) from rfl]
    by_cases h1 : k₁ = k
    · rw [if_pos h1]
      simp only [alookup_cons]
      rw [if_pos h1]
      by_cases h2 : key = k
      · rw [if_pos h2.symm, if_pos h2]
        rfl
      · rw [if_neg (fun h : k = key => h2 h.symm), if_neg h2, ih, if_neg h2,
          if_neg (fun h : k₁ = key => h2 (h.symm.trans h1))]
    · rw [if_neg h1]
      simp only [alookup_cons]
      rw [if_neg h1]
      by_cases h3 : k₁ = key
      · have h2 : ¬key = k := fun h => h1 (h3.trans h)
        rw [if_pos h3, if_neg h2, if_pos h3]
      · rw [if_neg h3, ih]
        by_cases h2 : key = k
        · rw [if_pos h2, if_pos h2]
        · rw [if_neg h2, if_neg h2, if_neg h3]

theorem alookup_append {β : Type} (m₁ m₂ : List (String × β)) (key : String) :
    alookup (m₁ ++ m₂) key = (alookup m₁ key).or (alookup m₂ key) := by
  induction m₁ with
  | nil => rw [List.nil_append, alookup_nil, Option.none_or]
  | cons a m ih =>
    obtain ⟨k₁, v₁⟩ := a
    rw [List.cons_append, alookup_cons, alookup_cons]
    by_cases h : k₁ = key
    · rw [if_pos h, if_pos h]
      rfl
    · rw [if_neg h, if_neg h, ih]

/-- The dict-assignment semantics at the lookup level. -/
theorem alookup_dictSet {β : Type} (m : List (String × β)) (k : String) (v : β)
    (key : String) :
    alookup (dictSet m k v) key = if key = k then some v else alookup m key := by
  unfold dictSet
  by_cases hex : (alookup m k).isSome
  · rw [if_pos hex, alookup_mapSet]
    by_cases h2 : key = k
    · rw [if_pos h2, if_pos h2]
      obtain ⟨w, hw⟩ := Option.isSome_iff_exists.mp hex
      rw [hw]
      rfl
    · rw [if_neg h2, if_neg h2]
  · rw [if_neg hex, alookup_append]
    by_cases h2 : key = k
    · subst h2
      rw [Option.not_isSome_iff_eq_none.mp hex, if_pos rfl]
      simp [alookup]
    · rw [if_neg h2]
      have hk : alookup [(k, v)] key = none := by
        rw [alookup_cons, if_neg (fun h : k = key => h2 h.symm), alookup_nil]
      rw [hk, Option.or_none]

theorem lookupPath_insertEntry (m : TokenMap) (t d k p tok date ftype : String) :
    lookupPath (insertEntry m t d k p) tok date ftype =
      if tok = t ∧ date = d ∧ ftype = k then some p
      else lookupPath m tok date ftype := by
  unfold insertEntry lookupPath
  rw [alookup_dictSet]
  by_cases h1 : tok = t
  · subst h1
    rw [if_pos rfl, Option.some_bind]
    rw [alookup_dictSet]
    by_cases h2 : date = d
    · subst h2
      rw [if_pos rfl, Option.some_bind]
      rw [alookup_dictSet]
      by_cases h3 : ftype = k
      · subst h3
        rw [if_pos rfl, if_pos ⟨rfl, rfl, rfl⟩]
      · rw [if_neg h3, if_neg (fun hcon => h3 hcon.2.2)]
        cases halm : alookup m tok with
        | none => simp [alookup]
        | some dm =>
          rw [Option.getD_some, Option.some_bind]
          cases hald : alookup dm date with
          | none => simp [alookup]
          | some km => simp
    · rw [if_neg h2, if_neg (fun hcon => h2 hcon.2.1)]
      cases halm : alookup m tok with
      | none => simp [alookup]
      | some dm => simp
  · rw [if_neg h1, if_neg (fun hcon => h1 hcon.1)]

/-- The loop body in terms of the guarded parse result. -/
def parseKey (f : String) : Option (String × String × String) :=
  match parse_filename f with
  | some (token, date_str, ftype) =>
    if token ≠ "" ∧ date_str ≠ "" then some (token, date_str, ftype) else none
  | none => none

theorem gadStep_eq (folder : String) (m : TokenMap) (f : String) :
    gadStep folder m f =
      match parseKey f with
      | some (token, date_str, ftype) => insertEntry m token date_str ftype (joinPath folder f)
      | none => m := by
  unfold gadStep parseKey
  cases hp : parse_filename f with
  | none => rfl
  | some q =>
    obtain ⟨token, date_str, ftype⟩ := q
    show (if token ≠ "" ∧ date_str ≠ "" then
        insertEntry m token date_str ftype (joinPath folder f) else m) =
      match (if token ≠ "" ∧ date_str ≠ "" then some (token, date_str, ftype) else none :
          Option (String × String × String)) with
      | some (token, date_str, ftype) => insertEntry m token date_str ftype (joinPath folder f)
      | none => m
    by_cases hg : token ≠ "" ∧ date_str ≠ ""
    · rw [if_pos hg, if_pos hg]
    · rw [if_neg hg, if_neg hg]

theorem gadStep_eq_none (folder : String) (m : TokenMap) (f : String)
    (h : parseKey f = none) : gadStep folder m f = m := by
  rw [gadStep_eq, h]

theorem gadStep_eq_some (folder : String) (m : TokenMap) (f t d k : String)
    (h : parseKey f = some (t, d, k)) :
    gadStep folder m f = insertEntry m t d k (joinPath folder f) := by
  rw [gadStep_eq, h]

/-- Last-write-wins characterization of a discovered artifact path: the
mapping holds exactly the path of the last listed file that parses to the
given (token, date, kind) triple. -/
theorem lookupPath_gad (folder : String) (fs : List String)
    (tok date ftype : String) :
    lookupPath (get_available_data folder fs) tok date ftype =
      (fs.reverse.find? fun f => decide (parseKey f = some (tok, date, ftype))).map
        (joinPath folder) := by
  induction fs using List.reverseRecOn with
  | nil => simp [get_available_data, lookupPath, alookup_nil]
  | append_singleton fs f ih =>
    rw [get_available_data, List.foldl_append, List.foldl_cons, List.foldl_nil]
    rw [show List.foldl (gadStep folder) [] fs = get_available_data folder fs from rfl]
    rw [List.reverse_append, List.reverse_singleton, List.singleton_append,
      List.find?_cons]
    cases hp : parseKey f with
    | none =>
      rw [gadStep_eq_none folder _ f hp]
      exact ih
    | some q =>
      obtain ⟨t, d, k⟩ := q
      rw [gadStep_eq_some folder _ f t d k hp, lookupPath_insertEntry]
      by_cases hq : tok = t ∧ date = d ∧ ftype = k
      · obtain ⟨rfl, rfl, rfl⟩ := hq
        rw [if_pos ⟨rfl, rfl, rfl⟩,
          show decide ((some (tok, date, ftype) : Option (String × String × String)) =
            some (tok, date, ftype)) = true from decide_eq_true rfl]
        rfl
      · rw [if_neg hq]
        have hd : decide ((some (t, d, k) : Option (String × String × String)) =
            some (tok, date, ftype)) = false := by
          rw [decide_eq_false_iff_not]
          intro hcon
          simp only [Option.some.injEq, Prod.mk.injEq] at hcon
          exact hq ⟨hcon.1.symm, hcon.2.1.symm, hcon.2.2.symm⟩
        rw [hd]
        exact ih

theorem find?_congr_perm {α : Type} (p : α → Bool) (l₁ l₂ : List α)
    (hperm : l₁.Perm l₂)
    (hu : ∀ a ∈ l₁, ∀ b ∈ l₁, p a = true → p b = true → a = b) :
    l₁.find? p = l₂.find? p := by
  cases h₁ : l₁.find? p with
  | none =>
    rw [List.find?_eq_none] at h₁
    symm
    rw [List.find?_eq_none]
    intro x hx
    exact h₁ x (hperm.symm.subset hx)
  | some a =>
    have hpa := List.find?_some h₁
    have hma := List.mem_of_find?_eq_some h₁
    cases h₂ : l₂.find? p with
    | none =>
      rw [List.find?_eq_none] at h₂
      exact absurd hpa (h₂ a (hperm.subset hma))
    | some b =>
      have hpb := List.find?_some h₂
      have hmb : b ∈ l₁ := hperm.symm.subset (List.mem_of_find?_eq_some h₂)
      rw [hu a hma b hmb hpa hpb]

/-- C8: artifact discovery is idempotent and deterministic: it is a pure
function of the directory contents, and — as long as no two distinct
filenames parse to the same (Token, Timestamp, Kind) triple — any two
listings of the same files (in whatever order the directory enumerates them)
produce the same Token → Timestamp → {report, analysis} mapping. -/
theorem c8_discovery_deterministic (folder : String) (fs₁ fs₂ : List String)
    (hperm : fs₁.Perm fs₂)
    (hu : ∀ f ∈ fs₁, ∀ g ∈ fs₁, (parseKey f).isSome = true →
        parseKey f = parseKey g → f = g) :
    ∀ tok date ftype,
      lookupPath (get_available_data folder fs₁) tok date ftype =
        lookupPath (get_available_data folder fs₂) tok date ftype := by
  intro tok date ftype
  rw [lookupPath_gad, lookupPath_gad]
  have hperm' : fs₁.reverse.Perm fs₂.reverse :=
    (fs₁.reverse_perm.trans hperm).trans fs₂.reverse_perm.symm
  rw [find?_congr_perm _ _ _ hperm']
  intro a ha b hb hpa hpb
  rw [List.mem_reverse] at ha hb
  rw [decide_eq_true_eq] at hpa hpb
  exact hu a ha b hb (by rw [hpa]; rfl) (by rw [hpa, hpb])

theorem c8_witness :
    lookupPath (get_available_data DATA_FOLDER
        ["ABC_risk_analysis_20240101_120000.csv", "ABC_risk_report_20240101_120000.txt"])
      "ABC" "20240101_120000" "analysis" =
    lookupPath (get_available_data DATA_FOLDER
        ["ABC_risk_report_20240101_120000.txt", "ABC_risk_analysis_20240101_120000.csv"])
      "ABC" "20240101_120000" "analysis" :=
  c8_discovery_deterministic DATA_FOLDER
    ["ABC_risk_analysis_20240101_120000.csv", "ABC_risk_report_20240101_120000.txt"]
    ["ABC_risk_report_20240101_120000.txt", "ABC_risk_analysis_20240101_120000.csv"]
    (by decide) (by decide) "ABC" "20240101_120000" "analysis"

/-- C2 is violated by the code: for a reachable (Token, Timestamp) selection
whose artifact pair is incomplete, the Viewer does NOT render the intended
inline warning — the sidebar's `files['report']` / `files['analysis']` dict
subscripts (lines 154-155) raise `KeyError` first, crashing the script run.
The `'❌ Missing'` captions and the `st.error(...)` branches (lines 154-155,
161-169) are unreachable for an absent key, because discovery only ever
stores present (non-empty) paths.  This theorem evaluates the embedded code
at the two failing inputs: a timestamp with only the analysis CSV discovered
(KeyError 'report'), and one with only the report TXT (KeyError 'analysis'). -/
theorem c2_missing_artifact_keyerror :
    viewerLoad (get_available_data DATA_FOLDER ["ABC_risk_analysis_20240101_120000.csv"])
        "ABC" "20240101_120000" = Except.error (PyErr.keyError "report")
  ∧ viewerLoad (get_available_data DATA_FOLDER ["ABC_risk_report_20240101_120000.txt"])
        "ABC" "20240101_120000" = Except.error (PyErr.keyError "analysis") :=
  ⟨rfl, rfl⟩

end RiskDash
